import Mathlib

/-!
Verification of the request-dispatch layer of the `social` repository:
a shallow embedding of `ai_agent_with_proxy.py` (proxy rotation, bounded
retry with backoff, streaming line decoding), `ai_agent_integration.py`
(the plain `AIAgentClient` facade) and `simple_ai_agent.py` (the
urllib-based `SimpleAIAgent`), together with theorems about proxy
round-robin fairness, the attempt budget, backoff insertion, failure
surfacing, the uniform error-record contract, stream decoding, request
timeouts and outgoing headers.

Network transport, the random number generator and the JSON library are
external effects; they are embedded as explicit oracles: an attempt-outcome
function `Nat → AttemptOutcome` standing for what `self.session.request`
raises or returns on each physical attempt, a stream `Nat → ℚ` of draws of
`random.random()` (so that `random.uniform(1, 3)` on attempt `k` is
`1 + (3 - 1) * u k`), and a partial JSON decoder `String → Option JsonMap`
standing for `json.loads` on one line.
-/

namespace Social

/-- A JSON object as the client inspects it: string-keyed entries with the
string values the code ever reads (the `error` messages); success bodies are
carried opaquely as such a mapping. -/
abbrev JsonMap := List (String × String)

/-- A raw byte string (one byte value per entry), as produced by
`response.iter_lines()` and by `e.read()` on an `HTTPError`: Python handles
these as `bytes`, and decoding them to text with `.decode('utf-8')` is a
fallible step that raises `UnicodeDecodeError` on invalid UTF-8. -/
abbrev Bytes := List Nat

/-- The proxy configuration dict `{'http': proxy, 'https': proxy}` that
`get_next_proxy` builds around the chosen endpoint. -/
structure ProxyConfig where
  http : String
  https : String
deriving DecidableEq

/-- An HTTP response as the client consumes it: `response.json()` for the
non-streaming operations; for streaming, the byte lines that `iter_lines()`
delivers followed by an optional transport failure that interrupts the
iteration mid-stream (after the listed lines). -/
structure Response where
  json : JsonMap
  lines : List Bytes
  transport_error : Option String
deriving DecidableEq

/-- Outcome of one physical `self.session.request(...)` +
`response.raise_for_status()` attempt, as discriminated by the `except`
clauses of `make_request`: a usable response, a
`requests.exceptions.ProxyError`, or any other
`requests.exceptions.RequestException`. -/
inductive AttemptOutcome where
  | success (resp : Response)
  | proxyError (msg : String)
  | requestException (msg : String)
deriving DecidableEq

/-- Whether the attempt produced a usable response. -/
def AttemptOutcome.isSuccess : AttemptOutcome → Bool
  | .success _ => true
  | _ => false

/-- Whether the attempt raised `requests.exceptions.ProxyError`. -/
def AttemptOutcome.isProxyError : AttemptOutcome → Bool
  | .proxyError _ => true
  | _ => false

/-- Terminal result of `make_request`: the returned response, or the message
of the exception it raises to its caller. -/
inductive ReqResult where
  | ok (resp : Response)
  | raised (msg : String)
deriving DecidableEq

/-- Observable steps of one `make_request` invocation: a physical attempt
(carrying the proxy endpoint configured for it, if any) or a
`time.sleep(...)` backoff with its delay in seconds. -/
inductive DispatchEvent where
  | attempt (proxy : Option String)
  | sleep (delay : ℚ)
deriving DecidableEq

/-- Python `base_url.rstrip('/')`: remove all trailing `/` characters. -/
def rstrip_slash (s : String) : String :=
  String.mk ((s.data.reverse.dropWhile (fun c => c = '/')).reverse)

/-- State of a `ProxyRotatingAIAgent` (`ai_agent_with_proxy.py`): the fields
set by `__init__`. `api_key` is the credential after the
`api_key or os.getenv('AI_AGENT_API_KEY')` resolution; `headers` is the set
of headers `__init__` installs on the session (the session's own defaults,
which include no browser-like `User-Agent`, are not modelled). -/
structure ProxyRotatingAIAgent where
  base_url : String
  api_key : Option String
  proxies : List String
  current_proxy_index : Nat
  headers : List (String × String)
deriving DecidableEq

/-- `ProxyRotatingAIAgent.__init__`: strip trailing slashes from the base
URL, store the proxy list with the cursor at 0, and, only when a credential
is configured, install the four session headers. -/
def ProxyRotatingAIAgent.init (base_url : String) (api_key : Option String)
    (proxies : List String) : ProxyRotatingAIAgent :=
  { base_url := rstrip_slash base_url
    api_key := api_key
    proxies := proxies
    current_proxy_index := 0
    headers :=
      match api_key with
      | some key =>
          [("Authorization", "Bearer " ++ key),
           ("Content-Type", "application/json"),
           ("Accept", "application/json"),
           ("User-Agent", "Mozilla/5.0 (X11; Linux x86_64) AppleWebKit/537.36")]
      | none => [] }

/-- `get_next_proxy`: `None` on an empty pool; otherwise the configuration
dict for the endpoint at the cursor, advancing the cursor by one modulo the
pool size. -/
def ProxyRotatingAIAgent.get_next_proxy (a : ProxyRotatingAIAgent) :
    Option ProxyConfig × ProxyRotatingAIAgent :=
  if a.proxies = [] then (none, a)
  else
    let proxy := a.proxies.getD a.current_proxy_index ""
    (some { http := proxy, https := proxy },
     { a with current_proxy_index := (a.current_proxy_index + 1) % a.proxies.length })

/-- The results of `n` consecutive `get_next_proxy` calls, together with the
final agent state. -/
def ProxyRotatingAIAgent.get_next_proxy_calls :
    Nat → ProxyRotatingAIAgent → List (Option ProxyConfig) × ProxyRotatingAIAgent
  | 0, a => ([], a)
  | n + 1, a =>
    let r := a.get_next_proxy
    let rest := ProxyRotatingAIAgent.get_next_proxy_calls n r.2
    (r.1 :: rest.1, rest.2)

/-- The local `max_attempts` computed at the top of `make_request`:
`len(self.proxies) + 1 if self.proxies else 1`. -/
def ProxyRotatingAIAgent.max_attempts (a : ProxyRotatingAIAgent) : Nat :=
  if a.proxies = [] then 1 else a.proxies.length + 1

/-- The `for attempt in range(max_attempts)` loop of `make_request`,
written with the number of remaining iterations (`fuel`) as the structural
argument; `attempt` is the loop counter. Each iteration calls
`get_next_proxy` (advancing the cursor), issues the physical attempt, and
then: returns on success; continues immediately on `ProxyError`; on any
other `RequestException` re-raises it if this was the last attempt and
otherwise sleeps `random.uniform(1, 3)` seconds and continues. Falling off
the end of the loop raises the generic `RequestException`. -/
def ProxyRotatingAIAgent.make_request_go (out : Nat → AttemptOutcome) (u : Nat → ℚ)
    (maxAtt : Nat) :
    Nat → Nat → ProxyRotatingAIAgent → List DispatchEvent × ReqResult × ProxyRotatingAIAgent
  | 0, _, a => ([], ReqResult.raised "All proxy attempts failed", a)
  | fuel + 1, attempt, a =>
    let pr := a.get_next_proxy
    let ev := DispatchEvent.attempt (pr.1.map fun c => c.https)
    match out attempt with
    | .success resp => ([ev], ReqResult.ok resp, pr.2)
    | .proxyError _ =>
        let r := ProxyRotatingAIAgent.make_request_go out u maxAtt fuel (attempt + 1) pr.2
        (ev :: r.1, r.2)
    | .requestException e =>
        if attempt = maxAtt - 1 then ([ev], ReqResult.raised e, pr.2)
        else
          let r := ProxyRotatingAIAgent.make_request_go out u maxAtt fuel (attempt + 1) pr.2
          (ev :: DispatchEvent.sleep (1 + (3 - 1) * u attempt) :: r.1, r.2)

/-- `make_request`: run the attempt loop from attempt 0 with
`max_attempts` iterations available. Returns the event trace, the terminal
result (returned response or raised exception), and the final agent state. -/
def ProxyRotatingAIAgent.make_request (a : ProxyRotatingAIAgent)
    (out : Nat → AttemptOutcome) (u : Nat → ℚ) :
    List DispatchEvent × ReqResult × ProxyRotatingAIAgent :=
  ProxyRotatingAIAgent.make_request_go out u a.max_attempts a.max_attempts 0 a

/-- Number of physical attempts recorded in an event trace. -/
def count_attempts : List DispatchEvent → Nat
  | [] => 0
  | DispatchEvent.attempt _ :: evs => count_attempts evs + 1
  | DispatchEvent.sleep _ :: evs => count_attempts evs

/-- `send_message`: POST to `/api/chat` via `make_request`; on a raised
`RequestException`, return the error mapping instead of propagating. -/
def ProxyRotatingAIAgent.send_message (a : ProxyRotatingAIAgent)
    (out : Nat → AttemptOutcome) (u : Nat → ℚ) : JsonMap :=
  match (a.make_request out u).2.1 with
  | .ok resp => resp.json
  | .raised e => [("error", "Request failed: " ++ e)]

/-- `get_agent_status`: GET `/api/status` via `make_request`; on a raised
`RequestException`, return the error mapping instead of propagating. -/
def ProxyRotatingAIAgent.get_agent_status (a : ProxyRotatingAIAgent)
    (out : Nat → AttemptOutcome) (u : Nat → ℚ) : JsonMap :=
  match (a.make_request out u).2.1 with
  | .ok resp => resp.json
  | .raised e => [("error", "Status check failed: " ++ e)]

/-- The `for line in response.iter_lines()` body of `stream_chat`, with
`utf8` standing for `bytes.decode('utf-8')` and `decode` for `json.loads`
on one line: skip empty byte lines; for a non-empty line first decode it as
UTF-8 — if that raises `UnicodeDecodeError` the exception is caught neither
by the inner `except json.JSONDecodeError` nor by the outer
`except requests.exceptions.RequestException`, so the generator aborts
there (second component `some line`, carrying the offending bytes) and no
further line is processed; otherwise JSON-decode the text, yield the record
on success, and silently drop the line on `json.JSONDecodeError`. Returns
the records yielded and the optional uncaught-abort marker. -/
def stream_chat_lines (utf8 : Bytes → Option String)
    (decode : String → Option JsonMap) : List Bytes → List JsonMap × Option Bytes
  | [] => ([], none)
  | line :: rest =>
    if line = [] then stream_chat_lines utf8 decode rest
    else
      match utf8 line with
      | none => ([], some line)
      | some s =>
        match decode s with
        | some chunk =>
            let r := stream_chat_lines utf8 decode rest
            (chunk :: r.1, r.2)
        | none => stream_chat_lines utf8 decode rest

/-- `stream_chat` as the records the generator yields plus how it ends: if
establishing the stream (`make_request`) raises, a single error record and
a normal end; otherwise the line loop runs — if it aborts on a non-UTF-8
line the records yielded so far are followed by the uncaught
`UnicodeDecodeError` (second component `some bad`), and if it completes,
a mid-stream transport failure contributes one final error record. `none`
in the second component means the generator terminated without raising. -/
def ProxyRotatingAIAgent.stream_chat (a : ProxyRotatingAIAgent)
    (utf8 : Bytes → Option String) (decode : String → Option JsonMap)
    (out : Nat → AttemptOutcome) (u : Nat → ℚ) : List JsonMap × Option Bytes :=
  match (a.make_request out u).2.1 with
  | .raised e => ([[("error", "Stream failed: " ++ e)]], none)
  | .ok resp =>
    let r := stream_chat_lines utf8 decode resp.lines
    match r.2 with
    | some bad => (r.1, some bad)
    | none =>
        (r.1 ++
          (match resp.transport_error with
           | some e => [[("error", "Stream failed: " ++ e)]]
           | none => []), none)

/-- The shape of one outgoing HTTP request as the client configures it:
method, target URL, explicit timeout (in seconds) if one is passed, and the
session headers it carries. -/
structure HttpRequest where
  method : String
  url : String
  timeout : Option Nat
  headers : List (String × String)
deriving DecidableEq

/-- The request `send_message` issues: `POST {base_url}/api/chat`,
`timeout=30`, with the session headers. -/
def ProxyRotatingAIAgent.send_message_request (a : ProxyRotatingAIAgent) : HttpRequest :=
  { method := "POST", url := a.base_url ++ "/api/chat", timeout := some 30,
    headers := a.headers }

/-- The request `get_agent_status` issues: `GET {base_url}/api/status`,
`timeout=15`, with the session headers. -/
def ProxyRotatingAIAgent.get_agent_status_request (a : ProxyRotatingAIAgent) : HttpRequest :=
  { method := "GET", url := a.base_url ++ "/api/status", timeout := some 15,
    headers := a.headers }

/-- The request `stream_chat` issues: `POST {base_url}/api/stream`,
`timeout=60`, with the session headers. -/
def ProxyRotatingAIAgent.stream_chat_request (a : ProxyRotatingAIAgent) : HttpRequest :=
  { method := "POST", url := a.base_url ++ "/api/stream", timeout := some 60,
    headers := a.headers }

/-- State of an `AIAgentClient` (`ai_agent_integration.py`): base URL,
resolved credential, and the session headers installed by `__init__`
(three headers when a credential is configured, none otherwise). -/
structure AIAgentClient where
  base_url : String
  api_key : Option String
  headers : List (String × String)
deriving DecidableEq

/-- `AIAgentClient.__init__`. -/
def AIAgentClient.init (base_url : String) (api_key : Option String) : AIAgentClient :=
  { base_url := rstrip_slash base_url
    api_key := api_key
    headers :=
      match api_key with
      | some key =>
          [("Authorization", "Bearer " ++ key),
           ("Content-Type", "application/json"),
           ("Accept", "application/json")]
      | none => [] }

/-- The request `AIAgentClient.send_message` issues:
`POST {base_url}/api/chat`, `timeout=30`. -/
def AIAgentClient.send_message_request (c : AIAgentClient) : HttpRequest :=
  { method := "POST", url := c.base_url ++ "/api/chat", timeout := some 30,
    headers := c.headers }

/-- The request `AIAgentClient.get_agent_status` issues:
`self.session.get(f'{self.base_url}/api/status')` — a GET with no `timeout`
argument. -/
def AIAgentClient.get_agent_status_request (c : AIAgentClient) : HttpRequest :=
  { method := "GET", url := c.base_url ++ "/api/status", timeout := none,
    headers := c.headers }

/-- `AIAgentClient.send_message` as a function of the transport outcome of
`session.post` + `raise_for_status` (a response, or the message of the
raised `RequestException`). -/
def AIAgentClient.send_message (result : Except String Response) : JsonMap :=
  match result with
  | .ok resp => resp.json
  | .error e => [("error", "Request failed: " ++ e)]

/-- `AIAgentClient.get_agent_status` as a function of the transport outcome
of `session.get` + `raise_for_status`. -/
def AIAgentClient.get_agent_status (result : Except String Response) : JsonMap :=
  match result with
  | .ok resp => resp.json
  | .error e => [("error", "Status check failed: " ++ e)]

/-- Outcome of the `urllib.request.urlopen` + `read` + `json.loads` body of
`SimpleAIAgent._make_request`, one constructor per `except` clause of the
source: success, `urllib.error.HTTPError` (with status code and the raw
bytes that `e.read()` yields for the error body), `urllib.error.URLError`,
`json.JSONDecodeError`, or any other `Exception` raised in the tried
block. -/
inductive UrllibOutcome where
  | success (body : JsonMap)
  | httpError (code : Nat) (body : Bytes)
  | urlError (msg : String)
  | jsonDecodeError (msg : String)
  | otherException (msg : String)
deriving DecidableEq

/-- `SimpleAIAgent._make_request` (`simple_ai_agent.py`), with `utf8`
standing for `bytes.decode('utf-8')`. `Except.ok m` means the function
returns the mapping `m`; `Except.error b` means it raises. The `HTTPError`
handler itself runs `e.read().decode('utf-8')` (`e.read` is a bound method
and hence always truthy, so the `else str(e)` branch is dead); if the error
body is not valid UTF-8, that `.decode` raises `UnicodeDecodeError` inside
the handler, which the sibling `except` clauses of the same `try` do not
catch, so the exception escapes to the caller. Every other handled failure
returns its error mapping. -/
def SimpleAIAgent._make_request (utf8 : Bytes → Option String)
    (o : UrllibOutcome) : Except Bytes JsonMap :=
  match o with
  | .success body => Except.ok body
  | .httpError code body =>
      match utf8 body with
      | some s => Except.ok [("error", "HTTP " ++ toString code ++ ": " ++ s)]
      | none => Except.error body
  | .urlError msg => Except.ok [("error", "URL Error: " ++ msg)]
  | .jsonDecodeError msg => Except.ok [("error", "JSON Error: " ++ msg)]
  | .otherException msg => Except.ok [("error", "Request failed: " ++ msg)]

/-- `SimpleAIAgent.send_message`: build the chat payload and delegate to
`_make_request`. -/
def SimpleAIAgent.send_message (utf8 : Bytes → Option String)
    (o : UrllibOutcome) : Except Bytes JsonMap :=
  SimpleAIAgent._make_request utf8 o

/-- `SimpleAIAgent.get_status`: delegate to `_make_request`. -/
def SimpleAIAgent.get_status (utf8 : Bytes → Option String)
    (o : UrllibOutcome) : Except Bytes JsonMap :=
  SimpleAIAgent._make_request utf8 o

/-- `SimpleAIAgent.configure`: POST the config mapping via `_make_request`. -/
def SimpleAIAgent.configure (utf8 : Bytes → Option String)
    (o : UrllibOutcome) : Except Bytes JsonMap :=
  SimpleAIAgent._make_request utf8 o

/-! ### Helper lemmas about the proxy rotation -/

lemma map_getD_range (ps : List String) (d : String) :
    (List.range ps.length).map (fun i => ps.getD i d) = ps := by
  induction ps with
  | nil => simp
  | cons p pr ih =>
      rw [List.length_cons, List.range_succ_eq_map, List.map_cons, List.map_map]
      refine congrArg₂ List.cons (by simp) ((List.map_congr_left fun i _ => ?_).trans ih)
      simp [Function.comp]

lemma get_next_proxy_calls_rotation (k : Nat) :
    ∀ a : ProxyRotatingAIAgent, a.proxies ≠ [] →
      a.current_proxy_index < a.proxies.length →
      (ProxyRotatingAIAgent.get_next_proxy_calls k a).1 =
        (List.range k).map (fun i =>
          some { http := a.proxies.getD ((a.current_proxy_index + i) % a.proxies.length) ""
                 https := a.proxies.getD ((a.current_proxy_index + i) % a.proxies.length) "" }) := by
  induction k with
  | zero =>
      intro a _ _
      simp [ProxyRotatingAIAgent.get_next_proxy_calls]
  | succ n ih =>
      intro a hne hidx
      have hlen : 0 < a.proxies.length := List.length_pos.mpr hne
      have hgp : a.get_next_proxy =
          (some { http := a.proxies.getD a.current_proxy_index ""
                  https := a.proxies.getD a.current_proxy_index "" },
           { a with current_proxy_index := (a.current_proxy_index + 1) % a.proxies.length }) := by
        simp [ProxyRotatingAIAgent.get_next_proxy, hne]
      have hrec := ih { a with current_proxy_index := (a.current_proxy_index + 1) % a.proxies.length }
        hne (Nat.mod_lt _ hlen)
      rw [List.range_succ_eq_map, List.map_cons, List.map_map]
      rw [ProxyRotatingAIAgent.get_next_proxy_calls, hgp]
      simp only [hrec]
      refine congrArg₂ List.cons ?_ ?_
      · simp [Nat.mod_eq_of_lt hidx]
      · refine List.map_congr_left fun i _ => ?_
        have harith : ((a.current_proxy_index + 1) % a.proxies.length + i) % a.proxies.length
            = (a.current_proxy_index + (i + 1)) % a.proxies.length := by
          rw [Nat.mod_add_mod]
          congr 1
          omega
        simp [harith]

/-! ### Helper lemmas about the attempt loop -/

lemma make_request_go_count_le (out : Nat → AttemptOutcome) (u : Nat → ℚ) (maxAtt : Nat) :
    ∀ fuel attempt a,
      count_attempts (ProxyRotatingAIAgent.make_request_go out u maxAtt fuel attempt a).1 ≤ fuel := by
  intro fuel
  induction fuel with
  | zero =>
      intro attempt a
      simp [ProxyRotatingAIAgent.make_request_go, count_attempts]
  | succ f ih =>
      intro attempt a
      cases hout : out attempt with
      | success resp =>
          simp [ProxyRotatingAIAgent.make_request_go, hout, count_attempts]
      | proxyError m =>
          have := ih (attempt + 1) (a.get_next_proxy).2
          simp only [ProxyRotatingAIAgent.make_request_go, hout, count_attempts]
          omega
      | requestException e =>
          by_cases hat : attempt = maxAtt - 1
          · subst hat
            simp [ProxyRotatingAIAgent.make_request_go, hout, count_attempts]
          · have := ih (attempt + 1) (a.get_next_proxy).2
            simp only [ProxyRotatingAIAgent.make_request_go, hout, hat, if_false,
              count_attempts]
            omega

lemma make_request_go_raised_of_no_success (out : Nat → AttemptOutcome) (u : Nat → ℚ)
    (maxAtt : Nat) :
    ∀ fuel attempt a,
      (∀ k, attempt ≤ k → k < attempt + fuel → (out k).isSuccess = false) →
      ∃ e, (ProxyRotatingAIAgent.make_request_go out u maxAtt fuel attempt a).2.1
        = ReqResult.raised e := by
  intro fuel
  induction fuel with
  | zero =>
      intro attempt a _
      exact ⟨"All proxy attempts failed", by simp [ProxyRotatingAIAgent.make_request_go]⟩
  | succ f ih =>
      intro attempt a hns
      cases hout : out attempt with
      | success resp =>
          have := hns attempt le_rfl (by omega)
          rw [hout] at this
          simp [AttemptOutcome.isSuccess] at this
      | proxyError m =>
          obtain ⟨e, he⟩ := ih (attempt + 1) (a.get_next_proxy).2
            (fun k hk hk' => hns k (by omega) (by omega))
          exact ⟨e, by simp [ProxyRotatingAIAgent.make_request_go, hout, he]⟩
      | requestException e =>
          by_cases hat : attempt = maxAtt - 1
          · subst hat
            exact ⟨e, by simp [ProxyRotatingAIAgent.make_request_go, hout]⟩
          · obtain ⟨e', he'⟩ := ih (attempt + 1) (a.get_next_proxy).2
              (fun k hk hk' => hns k (by omega) (by omega))
            exact ⟨e', by simp [ProxyRotatingAIAgent.make_request_go, hout, hat, he']⟩

lemma make_request_empty_pool_count (out : Nat → AttemptOutcome) (u : Nat → ℚ)
    (a : ProxyRotatingAIAgent) (h : a.proxies = []) :
    count_attempts (a.make_request out u).1 = 1 := by
  have hmax : a.max_attempts = 1 := by simp [ProxyRotatingAIAgent.max_attempts, h]
  rw [ProxyRotatingAIAgent.make_request, hmax]
  cases hout : out 0 with
  | success resp =>
      simp [ProxyRotatingAIAgent.make_request_go, hout, count_attempts]
  | proxyError m =>
      simp [ProxyRotatingAIAgent.make_request_go, hout, count_attempts]
  | requestException e =>
      simp [ProxyRotatingAIAgent.make_request_go, hout, count_attempts]

lemma make_request_go_last_requestException (out : Nat → AttemptOutcome) (u : Nat → ℚ)
    (maxAtt : Nat) (e : String) :
    ∀ fuel attempt a, fuel + attempt = maxAtt → 0 < fuel →
      (∀ k, attempt ≤ k → k + 1 < maxAtt → (out k).isSuccess = false) →
      out (maxAtt - 1) = AttemptOutcome.requestException e →
      (ProxyRotatingAIAgent.make_request_go out u maxAtt fuel attempt a).2.1
        = ReqResult.raised e := by
  intro fuel
  induction fuel with
  | zero =>
      intro attempt a _ h0
      exact absurd h0 (lt_irrefl 0)
  | succ f ih =>
      intro attempt a hsum _ hns hlast
      by_cases hf : f = 0
      · subst hf
        have hat : attempt = maxAtt - 1 := by omega
        subst hat
        simp [ProxyRotatingAIAgent.make_request_go, hlast]
      · have hat : attempt ≠ maxAtt - 1 := by omega
        have hk := hns attempt le_rfl (by omega)
        cases hout : out attempt with
        | success resp =>
            rw [hout] at hk
            simp [AttemptOutcome.isSuccess] at hk
        | proxyError m =>
            have hrec := ih (attempt + 1) (a.get_next_proxy).2 (by omega) (by omega)
              (fun k h1 h2 => hns k (by omega) h2) hlast
            simp [ProxyRotatingAIAgent.make_request_go, hout, hrec]
        | requestException e' =>
            have hrec := ih (attempt + 1) (a.get_next_proxy).2 (by omega) (by omega)
              (fun k h1 h2 => hns k (by omega) h2) hlast
            simp [ProxyRotatingAIAgent.make_request_go, hout, hat, hrec]

lemma make_request_go_all_failed_generic (out : Nat → AttemptOutcome) (u : Nat → ℚ)
    (maxAtt : Nat) :
    ∀ fuel attempt a, fuel + attempt = maxAtt →
      (∀ k, attempt ≤ k → k + 1 < maxAtt → (out k).isSuccess = false) →
      (∃ m, out (maxAtt - 1) = AttemptOutcome.proxyError m) →
      (ProxyRotatingAIAgent.make_request_go out u maxAtt fuel attempt a).2.1
        = ReqResult.raised "All proxy attempts failed" := by
  intro fuel
  induction fuel with
  | zero =>
      intro attempt a _ _ _
      simp [ProxyRotatingAIAgent.make_request_go]
  | succ f ih =>
      intro attempt a hsum hns hlastp
      by_cases hf : f = 0
      · subst hf
        have hat : attempt = maxAtt - 1 := by omega
        subst hat
        obtain ⟨m, hm⟩ := hlastp
        simp [ProxyRotatingAIAgent.make_request_go, hm]
      · have hat : attempt ≠ maxAtt - 1 := by omega
        have hk := hns attempt le_rfl (by omega)
        cases hout : out attempt with
        | success resp =>
            rw [hout] at hk
            simp [AttemptOutcome.isSuccess] at hk
        | proxyError m =>
            have hrec := ih (attempt + 1) (a.get_next_proxy).2 (by omega)
              (fun k h1 h2 => hns k (by omega) h2) hlastp
            simp [ProxyRotatingAIAgent.make_request_go, hout, hrec]
        | requestException e' =>
            have hrec := ih (attempt + 1) (a.get_next_proxy).2 (by omega)
              (fun k h1 h2 => hns k (by omega) h2) hlastp
            simp [ProxyRotatingAIAgent.make_request_go, hout, hat, hrec]

lemma max_attempts_pos (a : ProxyRotatingAIAgent) : 0 < a.max_attempts := by
  rw [ProxyRotatingAIAgent.max_attempts]
  split <;> omega

/-! ### Concrete fixtures used by the witnesses -/

/-- A transport oracle whose every attempt raises `ProxyError`. -/
def out_proxy_fail : Nat → AttemptOutcome :=
  fun _ => AttemptOutcome.proxyError "connection refused"

/-- A transport oracle: attempt 0 raises `ProxyError`, every later attempt a
plain `RequestException`. -/
def out_then_timeout : Nat → AttemptOutcome := fun k =>
  if k = 0 then AttemptOutcome.proxyError "connection refused"
  else AttemptOutcome.requestException "timed out"

/-- A random stream that always draws 0. -/
def u_zero : Nat → ℚ := fun _ => 0

/-- A one-proxy agent fixture. -/
def agent1 : ProxyRotatingAIAgent :=
  ProxyRotatingAIAgent.init "http://agent.example" none ["http://p1:8080"]

/-! ### Claims C1 and C2 -/

/-- C1: `make_request` computes an attempt budget of `len(proxies) + 1` for
a non-empty pool and `1` for an empty pool, performs at most that many
physical attempts, surfaces a raised failure whenever no attempt within the
budget succeeds (it never attempts past the budget), and with an empty pool
makes exactly one attempt. -/
theorem make_request_attempt_budget (out : Nat → AttemptOutcome) (u : Nat → ℚ)
    (a : ProxyRotatingAIAgent) :
    a.max_attempts = (if a.proxies = [] then 1 else a.proxies.length + 1) ∧
    count_attempts (a.make_request out u).1 ≤ a.max_attempts ∧
    (a.proxies = [] → count_attempts (a.make_request out u).1 = 1) ∧
    ((∀ k, k < a.max_attempts → (out k).isSuccess = false) →
      ∃ e, (a.make_request out u).2.1 = ReqResult.raised e) := by
  refine ⟨rfl, ?_, fun h => make_request_empty_pool_count out u a h, fun h => ?_⟩
  · exact make_request_go_count_le out u a.max_attempts a.max_attempts 0 a
  · exact make_request_go_raised_of_no_success out u a.max_attempts a.max_attempts 0 a
      (fun k _ hk => h k (by omega))

/-- Witness for C1 at a concrete one-proxy agent whose attempts all
proxy-fail. -/
theorem make_request_attempt_budget_witness :
    ∃ e, (agent1.make_request out_proxy_fail u_zero).2.1 = ReqResult.raised e :=
  (make_request_attempt_budget out_proxy_fail u_zero agent1).2.2.2 (by decide)

/-- C2: `get_next_proxy` returns `None` on an empty pool; on a non-empty
pool it returns the endpoint at the current cursor and advances the cursor
by exactly one, wrapping modulo the pool size, so the cursor stays a valid
index; from a freshly initialised agent with `N` endpoints, `N` consecutive
calls return each endpoint exactly once in original list order and the
`(N+1)`-th call returns the first endpoint again. -/
theorem get_next_proxy_round_robin :
    (∀ a : ProxyRotatingAIAgent, a.proxies = [] → a.get_next_proxy = (none, a)) ∧
    (∀ a : ProxyRotatingAIAgent, a.proxies ≠ [] →
      a.current_proxy_index < a.proxies.length →
      (a.get_next_proxy.1 = some { http := a.proxies.getD a.current_proxy_index ""
                                   https := a.proxies.getD a.current_proxy_index "" } ∧
       a.get_next_proxy.2.current_proxy_index
          = (a.current_proxy_index + 1) % a.proxies.length ∧
       a.get_next_proxy.2.current_proxy_index < a.proxies.length ∧
       a.get_next_proxy.2.proxies = a.proxies)) ∧
    (∀ (base : String) (key : Option String) (ps : List String), ps ≠ [] →
      (ProxyRotatingAIAgent.get_next_proxy_calls ps.length
          (ProxyRotatingAIAgent.init base key ps)).1
        = ps.map (fun p => some { http := p, https := p }) ∧
      (ProxyRotatingAIAgent.get_next_proxy_calls (ps.length + 1)
          (ProxyRotatingAIAgent.init base key ps)).1
        = ps.map (fun p => some { http := p, https := p })
            ++ [some { http := ps.getD 0 "", https := ps.getD 0 "" }]) := by
  refine ⟨?_, ?_, ?_⟩
  · intro a h
    simp [ProxyRotatingAIAgent.get_next_proxy, h]
  · intro a h hidx
    have hlen : 0 < a.proxies.length := List.length_pos.mpr h
    refine ⟨by simp [ProxyRotatingAIAgent.get_next_proxy, h],
      by simp [ProxyRotatingAIAgent.get_next_proxy, h],
      ?_, by simp [ProxyRotatingAIAgent.get_next_proxy, h]⟩
    simp only [ProxyRotatingAIAgent.get_next_proxy, h, if_false]
    exact Nat.mod_lt _ hlen
  · intro base key ps hps
    have hlen : 0 < ps.length := List.length_pos.mpr hps
    have hinit : (ProxyRotatingAIAgent.init base key ps).proxies = ps := rfl
    have hidx0 : (ProxyRotatingAIAgent.init base key ps).current_proxy_index = 0 := rfl
    have main : ∀ k, (ProxyRotatingAIAgent.get_next_proxy_calls k
        (ProxyRotatingAIAgent.init base key ps)).1
        = (List.range k).map (fun i => some { http := ps.getD (i % ps.length) ""
                                              https := ps.getD (i % ps.length) "" }) := by
      intro k
      have := get_next_proxy_calls_rotation k (ProxyRotatingAIAgent.init base key ps)
        (by rw [hinit]; exact hps) (by rw [hinit, hidx0]; exact hlen)
      rw [this]
      simp [hinit, hidx0]
    have base_map : (List.range ps.length).map
        (fun i => some { http := ps.getD (i % ps.length) ""
                         https := ps.getD (i % ps.length) "" } : Nat → Option ProxyConfig)
        = ps.map (fun p => some { http := p, https := p }) := by
      have step1 : (List.range ps.length).map
          (fun i => some { http := ps.getD (i % ps.length) ""
                           https := ps.getD (i % ps.length) "" } : Nat → Option ProxyConfig)
          = (List.range ps.length).map
            ((fun p => some { http := p, https := p }) ∘ (fun i => ps.getD i "")) := by
        refine List.map_congr_left fun i hi => ?_
        have : i < ps.length := List.mem_range.mp hi
        simp [Nat.mod_eq_of_lt this, Function.comp]
      rw [step1, ← List.map_map, map_getD_range]
    refine ⟨by rw [main ps.length, base_map], ?_⟩
    rw [main (ps.length + 1), List.range_succ, List.map_append, base_map]
    simp [Nat.mod_self]

/-- Witness for C2 at a three-proxy pool. -/
theorem get_next_proxy_round_robin_witness :
    (ProxyRotatingAIAgent.get_next_proxy_calls 3
        (ProxyRotatingAIAgent.init "http://agent.example" none
          ["http://p1", "http://p2", "http://p3"])).1
      = [some { http := "http://p1", https := "http://p1" },
         some { http := "http://p2", https := "http://p2" },
         some { http := "http://p3", https := "http://p3" }] := by
  have h := (get_next_proxy_round_robin.2.2 "http://agent.example" none
      ["http://p1", "http://p2", "http://p3"] (by decide)).1
  simpa using h

/-! ### Claims C3 and C4 -/

/-- A transport oracle whose every attempt raises a plain
`RequestException`. -/
def out_timeout : Nat → AttemptOutcome :=
  fun _ => AttemptOutcome.requestException "timed out"

/-- C3: within one `make_request` invocation, an attempt that raises
`ProxyError` proceeds immediately to the next attempt with no sleep
inserted, while an attempt that raises any other `RequestException` on a
non-final attempt sleeps for `random.uniform(1, 3)` seconds — a delay that
lies in `[1, 3)` whenever the underlying `random.random()` draw lies in
`[0, 1)` — before the next attempt. -/
theorem proxy_swap_no_backoff (out : Nat → AttemptOutcome) (u : Nat → ℚ)
    (maxAtt fuel attempt : Nat) (a : ProxyRotatingAIAgent) :
    (∀ m, out attempt = AttemptOutcome.proxyError m →
      (ProxyRotatingAIAgent.make_request_go out u maxAtt (fuel + 1) attempt a).1
        = DispatchEvent.attempt (a.get_next_proxy.1.map fun c => c.https)
            :: (ProxyRotatingAIAgent.make_request_go out u maxAtt fuel (attempt + 1)
                  a.get_next_proxy.2).1) ∧
    (∀ e, out attempt = AttemptOutcome.requestException e → attempt ≠ maxAtt - 1 →
      (ProxyRotatingAIAgent.make_request_go out u maxAtt (fuel + 1) attempt a).1
        = DispatchEvent.attempt (a.get_next_proxy.1.map fun c => c.https)
            :: DispatchEvent.sleep (1 + (3 - 1) * u attempt)
            :: (ProxyRotatingAIAgent.make_request_go out u maxAtt fuel (attempt + 1)
                  a.get_next_proxy.2).1 ∧
      (0 ≤ u attempt → u attempt < 1 →
        1 ≤ 1 + (3 - 1) * u attempt ∧ 1 + (3 - 1) * u attempt < 3)) := by
  constructor
  · intro m hm
    simp [ProxyRotatingAIAgent.make_request_go, hm]
  · intro e he hat
    refine ⟨by simp [ProxyRotatingAIAgent.make_request_go, he, hat],
      fun h0 h1 => ⟨by linarith, by linarith⟩⟩

/-- Witness for C3: a non-final transient failure at attempt 0 of a
two-attempt budget inserts exactly one sleep, with delay 1 for the
all-zeros random stream. -/
theorem proxy_swap_no_backoff_witness :
    (ProxyRotatingAIAgent.make_request_go out_timeout u_zero 2 1 0 agent1).1
      = DispatchEvent.attempt (agent1.get_next_proxy.1.map fun c => c.https)
          :: DispatchEvent.sleep (1 + (3 - 1) * u_zero 0)
          :: (ProxyRotatingAIAgent.make_request_go out_timeout u_zero 2 0 1
                agent1.get_next_proxy.2).1 ∧
    (1 ≤ 1 + (3 - 1) * u_zero 0 ∧ 1 + (3 - 1) * u_zero 0 < 3) := by
  have h := (proxy_swap_no_backoff out_timeout u_zero 2 0 0 agent1).2 "timed out" rfl
    (by decide)
  exact ⟨h.1, h.2 (by norm_num [u_zero]) (by norm_num [u_zero])⟩

/-- C4: when the final attempt of `make_request` fails with a non-proxy
`RequestException`, that underlying exception is re-raised to the caller;
when the attempt loop instead completes all attempts without any success
(the final attempt proxy-failing), `make_request` raises the generic
"All proxy attempts failed" `RequestException`. -/
theorem make_request_failure_surfacing (out : Nat → AttemptOutcome) (u : Nat → ℚ)
    (a : ProxyRotatingAIAgent) :
    (∀ e, (∀ k, k + 1 < a.max_attempts → (out k).isSuccess = false) →
      out (a.max_attempts - 1) = AttemptOutcome.requestException e →
      (a.make_request out u).2.1 = ReqResult.raised e) ∧
    ((∀ k, k + 1 < a.max_attempts → (out k).isSuccess = false) →
      (∃ m, out (a.max_attempts - 1) = AttemptOutcome.proxyError m) →
      (a.make_request out u).2.1 = ReqResult.raised "All proxy attempts failed") := by
  constructor
  · intro e hns hlast
    exact make_request_go_last_requestException out u a.max_attempts e a.max_attempts 0 a
      (by omega) (max_attempts_pos a) (fun k _ h2 => hns k h2) hlast
  · intro hns hlast
    exact make_request_go_all_failed_generic out u a.max_attempts a.max_attempts 0 a
      (by omega) (fun k _ h2 => hns k h2) hlast

/-- Witness for C4 at a one-proxy agent: a final-attempt `RequestException`
is re-raised, and an all-proxy-failure run raises the generic error. -/
theorem make_request_failure_surfacing_witness :
    (agent1.make_request out_then_timeout u_zero).2.1 = ReqResult.raised "timed out" ∧
    (agent1.make_request out_proxy_fail u_zero).2.1
      = ReqResult.raised "All proxy attempts failed" :=
  ⟨(make_request_failure_surfacing out_then_timeout u_zero agent1).1 "timed out"
      (by
        intro k hk
        have h2 : agent1.max_attempts = 2 := by decide
        rw [h2] at hk
        have hk0 : k = 0 := by omega
        subst hk0
        decide)
      (by decide),
   (make_request_failure_surfacing out_proxy_fail u_zero agent1).2
      (by
        intro k hk
        have h2 : agent1.max_attempts = 2 := by decide
        rw [h2] at hk
        have hk0 : k = 0 := by omega
        subst hk0
        decide)
      ⟨"connection refused", by decide⟩⟩

/-! ### Claim C5 -/

/-- C5: the public operations never propagate a transport exception: each of
`ProxyRotatingAIAgent.send_message`, `ProxyRotatingAIAgent.get_agent_status`,
`AIAgentClient.send_message` and `AIAgentClient.get_agent_status` either
returns the decoded success body or, when the dispatch layer raises a
request failure, returns a mapping carrying an `error` key with a
descriptive string. -/
theorem send_message_uniform_failure (out : Nat → AttemptOutcome) (u : Nat → ℚ)
    (a : ProxyRotatingAIAgent) (r1 r2 : Except String Response) :
    ((∃ resp, (a.make_request out u).2.1 = ReqResult.ok resp ∧
        a.send_message out u = resp.json) ∨
      (∃ e, (a.make_request out u).2.1 = ReqResult.raised e ∧
        a.send_message out u = [("error", "Request failed: " ++ e)])) ∧
    ((∃ resp, (a.make_request out u).2.1 = ReqResult.ok resp ∧
        a.get_agent_status out u = resp.json) ∨
      (∃ e, (a.make_request out u).2.1 = ReqResult.raised e ∧
        a.get_agent_status out u = [("error", "Status check failed: " ++ e)])) ∧
    ((∃ resp, r1 = Except.ok resp ∧ AIAgentClient.send_message r1 = resp.json) ∨
      (∃ e, r1 = Except.error e ∧
        AIAgentClient.send_message r1 = [("error", "Request failed: " ++ e)])) ∧
    ((∃ resp, r2 = Except.ok resp ∧ AIAgentClient.get_agent_status r2 = resp.json) ∨
      (∃ e, r2 = Except.error e ∧
        AIAgentClient.get_agent_status r2 = [("error", "Status check failed: " ++ e)])) := by
  refine ⟨?_, ?_, ?_, ?_⟩
  · cases h : (a.make_request out u).2.1 with
    | ok resp =>
        exact Or.inl ⟨resp, rfl, by simp [ProxyRotatingAIAgent.send_message, h]⟩
    | raised e =>
        exact Or.inr ⟨e, rfl, by simp [ProxyRotatingAIAgent.send_message, h]⟩
  · cases h : (a.make_request out u).2.1 with
    | ok resp =>
        exact Or.inl ⟨resp, rfl, by simp [ProxyRotatingAIAgent.get_agent_status, h]⟩
    | raised e =>
        exact Or.inr ⟨e, rfl, by simp [ProxyRotatingAIAgent.get_agent_status, h]⟩
  · cases r1 with
    | ok resp => exact Or.inl ⟨resp, rfl, rfl⟩
    | error e => exact Or.inr ⟨e, rfl, rfl⟩
  · cases r2 with
    | ok resp => exact Or.inl ⟨resp, rfl, rfl⟩
    | error e => exact Or.inr ⟨e, rfl, rfl⟩

/-! ### Claims C6 and C7 -/

lemma stream_chat_lines_no_abort (utf8 : Bytes → Option String)
    (decode : String → Option JsonMap)
    (hnil : utf8 [] = some "") (hdec : decode "" = none) :
    ∀ ls : List Bytes, (∀ l ∈ ls, (utf8 l).isSome) →
      stream_chat_lines utf8 decode ls
        = (ls.filterMap (fun l => (utf8 l).bind decode), none) := by
  intro ls
  induction ls with
  | nil =>
      intro _
      simp [stream_chat_lines]
  | cons l rest ih =>
      intro hall
      have hrest := ih (fun x hx => hall x (List.mem_cons_of_mem _ hx))
      by_cases hl : l = []
      · subst hl
        simp [stream_chat_lines, hrest, List.filterMap_cons, hnil, hdec]
      · obtain ⟨s, hs⟩ := Option.isSome_iff_exists.mp (hall l (List.mem_cons_self _ _))
        cases hd : decode s with
        | none => simp [stream_chat_lines, hl, hs, hd, hrest, List.filterMap_cons]
        | some c => simp [stream_chat_lines, hl, hs, hd, hrest, List.filterMap_cons]

lemma stream_chat_lines_abort (utf8 : Bytes → Option String)
    (decode : String → Option JsonMap)
    (hnil : utf8 [] = some "") (hdec : decode "" = none)
    (bad : Bytes) (post : List Bytes) (hbad : bad ≠ [])
    (hbadutf8 : utf8 bad = none) :
    ∀ pre : List Bytes, (∀ l ∈ pre, (utf8 l).isSome) →
      stream_chat_lines utf8 decode (pre ++ bad :: post)
        = (pre.filterMap (fun l => (utf8 l).bind decode), some bad) := by
  intro pre
  induction pre with
  | nil =>
      intro _
      simp [stream_chat_lines, hbad, hbadutf8]
  | cons l rest ih =>
      intro hall
      have hrest := ih (fun x hx => hall x (List.mem_cons_of_mem _ hx))
      by_cases hl : l = []
      · subst hl
        simp [stream_chat_lines, hrest, List.filterMap_cons, hnil, hdec]
      · obtain ⟨s, hs⟩ := Option.isSome_iff_exists.mp (hall l (List.mem_cons_self _ _))
        cases hd : decode s with
        | none => simp [stream_chat_lines, hl, hs, hd, hrest, List.filterMap_cons]
        | some c => simp [stream_chat_lines, hl, hs, hd, hrest, List.filterMap_cons]

/-- C6 (amended): for a successfully established and fully delivered
streaming body all of whose lines are valid UTF-8, `stream_chat` yields
exactly the successfully JSON-decoded records of the body's lines, in the
order the lines appear, and a line that fails JSON decoding is dropped
silently, aborts nothing and yields no record; a line that is not valid
UTF-8 instead raises an uncaught `UnicodeDecodeError` from
`line.decode('utf-8')`, aborting the stream there with only the preceding
lines' records yielded. (The hypotheses `utf8 [] = some ""` and
`decode "" = none` record that the empty line is valid UTF-8 but not valid
JSON.) -/
theorem stream_chat_decoded_records (utf8 : Bytes → Option String)
    (decode : String → Option JsonMap)
    (out : Nat → AttemptOutcome) (u : Nat → ℚ) (a : ProxyRotatingAIAgent)
    (resp : Response)
    (hnil : utf8 [] = some "") (hdec : decode "" = none)
    (hok : (a.make_request out u).2.1 = ReqResult.ok resp) :
    (resp.transport_error = none → (∀ l ∈ resp.lines, (utf8 l).isSome) →
      a.stream_chat utf8 decode out u
        = (resp.lines.filterMap (fun l => (utf8 l).bind decode), none)) ∧
    (∀ pre bad post, resp.lines = pre ++ bad :: post → bad ≠ [] →
      utf8 bad = none → (∀ l ∈ pre, (utf8 l).isSome) →
      a.stream_chat utf8 decode out u
        = (pre.filterMap (fun l => (utf8 l).bind decode), some bad)) := by
  constructor
  · intro hte hall
    simp [ProxyRotatingAIAgent.stream_chat, hok, hte,
      stream_chat_lines_no_abort utf8 decode hnil hdec resp.lines hall]
  · intro pre bad post hsplit hbad hbadutf8 hall
    simp [ProxyRotatingAIAgent.stream_chat, hok, hsplit,
      stream_chat_lines_abort utf8 decode hnil hdec bad post hbad hbadutf8 pre hall]

/-- A decoder fixture for `json.loads`: two recognised lines, everything
else malformed. -/
def decode0 : String → Option JsonMap := fun l =>
  if l = "rec1" then some [("a", "1")]
  else if l = "rec2" then some [("a", "2")]
  else none

/-- The UTF-8 encoding of `rec1`. -/
def bytes_rec1 : Bytes := [114, 101, 99, 49]

/-- The UTF-8 encoding of `NOT JSON`. -/
def bytes_not_json : Bytes := [78, 79, 84, 32, 74, 83, 79, 78]

/-- The UTF-8 encoding of `rec2`. -/
def bytes_rec2 : Bytes := [114, 101, 99, 50]

/-- A byte sequence that is not valid UTF-8 (a lone `0xFF` byte). -/
def bytes_invalid : Bytes := [255]

/-- The `bytes.decode('utf-8')` oracle on the fixture lines: decodes the
well-formed fixtures, fails on `bytes_invalid`. -/
def utf8_0 : Bytes → Option String := fun b =>
  if b = [] then some ""
  else if b = bytes_rec1 then some "rec1"
  else if b = bytes_not_json then some "NOT JSON"
  else if b = bytes_rec2 then some "rec2"
  else none

/-- A fully delivered streaming response fixture with one malformed-JSON
line and one empty line, all valid UTF-8. -/
def resp0 : Response :=
  { json := [("ok", "true")], lines := [bytes_rec1, bytes_not_json, [], bytes_rec2],
    transport_error := none }

/-- A transport oracle that succeeds immediately with `resp0`. -/
def out_ok : Nat → AttemptOutcome := fun _ => AttemptOutcome.success resp0

/-- A streaming response fixture whose middle line is not valid UTF-8. -/
def resp_nonutf8 : Response :=
  { json := [], lines := [bytes_rec1, bytes_invalid, bytes_rec2],
    transport_error := none }

/-- A transport oracle that succeeds immediately with `resp_nonutf8`. -/
def out_nonutf8 : Nat → AttemptOutcome :=
  fun _ => AttemptOutcome.success resp_nonutf8

/-- C6 counterexample: a streaming body whose middle line is not valid
UTF-8. `line.decode('utf-8')` raises `UnicodeDecodeError`, which neither
the inner `except json.JSONDecodeError` nor the outer
`except requests.exceptions.RequestException` catches, so the generator
aborts with an uncaught exception (second component `some bytes_invalid`),
and the later line `rec2` — valid UTF-8 and valid JSON — is never yielded:
this refutes both "never aborts the stream" and "yields exactly the
successfully JSON-decoded records of the body's lines". -/
theorem stream_chat_unicode_abort_counterexample :
    (agent1.stream_chat utf8_0 decode0 out_nonutf8 u_zero).2 = some bytes_invalid ∧
    (agent1.stream_chat utf8_0 decode0 out_nonutf8 u_zero).1 = [[("a", "1")]] ∧
    utf8_0 bytes_rec2 = some "rec2" ∧ decode0 "rec2" = some [("a", "2")] := by
  decide

/-- Witness for the amended C6: with every line valid UTF-8, the
malformed-JSON and empty lines are dropped and the two valid records come
out in stream order with no abort. -/
theorem stream_chat_decoded_records_witness :
    agent1.stream_chat utf8_0 decode0 out_ok u_zero
      = ([[("a", "1")], [("a", "2")]], none) :=
  ((stream_chat_decoded_records utf8_0 decode0 out_ok u_zero agent1 resp0
      (by decide) (by decide) (by decide)).1 rfl (by decide)).trans (by decide)

/-- A streaming response fixture interrupted by a mid-stream transport
failure after one delivered line. -/
def resp_interrupted : Response :=
  { json := [], lines := [bytes_rec1], transport_error := some "connection reset" }

/-- A transport oracle that succeeds immediately with `resp_interrupted`. -/
def out_interrupted : Nat → AttemptOutcome :=
  fun _ => AttemptOutcome.success resp_interrupted

/-- C7: a transport-level failure during `stream_chat` — at establishment or
mid-stream after some records were delivered — makes the generator yield
exactly one additional `error` record and then terminate normally; the
stream is not retried after partial delivery. (The mid-stream case is
conditioned on the line loop not having aborted on a non-UTF-8 line first,
since in that execution the transport failure is never reached.) -/
theorem stream_chat_transport_error (utf8 : Bytes → Option String)
    (decode : String → Option JsonMap)
    (out : Nat → AttemptOutcome) (u : Nat → ℚ) (a : ProxyRotatingAIAgent)
    (resp : Response) :
    (∀ e, (a.make_request out u).2.1 = ReqResult.raised e →
      a.stream_chat utf8 decode out u
        = ([[("error", "Stream failed: " ++ e)]], none)) ∧
    (∀ e, (a.make_request out u).2.1 = ReqResult.ok resp →
      resp.transport_error = some e →
      (stream_chat_lines utf8 decode resp.lines).2 = none →
      a.stream_chat utf8 decode out u
        = ((stream_chat_lines utf8 decode resp.lines).1
            ++ [[("error", "Stream failed: " ++ e)]], none)) := by
  constructor
  · intro e h
    simp [ProxyRotatingAIAgent.stream_chat, h]
  · intro e hok hte habort
    simp [ProxyRotatingAIAgent.stream_chat, hok, hte, habort]

/-- Witness for C7: an establishment failure yields exactly the single error
record, and a mid-stream failure yields the delivered records followed by
the single error record, the generator ending normally in both cases. -/
theorem stream_chat_transport_error_witness :
    agent1.stream_chat utf8_0 decode0 out_proxy_fail u_zero
      = ([[("error", "Stream failed: " ++ "All proxy attempts failed")]], none) ∧
    agent1.stream_chat utf8_0 decode0 out_interrupted u_zero
      = ((stream_chat_lines utf8_0 decode0 resp_interrupted.lines).1
          ++ [[("error", "Stream failed: " ++ "connection reset")]], none) :=
  ⟨(stream_chat_transport_error utf8_0 decode0 out_proxy_fail u_zero agent1 resp0).1
      "All proxy attempts failed" (by decide),
   (stream_chat_transport_error utf8_0 decode0 out_interrupted u_zero agent1
      resp_interrupted).2 "connection reset" (by decide) rfl (by decide)⟩

/-! ### Claim C8 -/

/-- C8 counterexample: `AIAgentClient.get_agent_status` issues its GET to
the status endpoint via `self.session.get(...)` with no `timeout` argument
at all, so the claimed 15-second timeout fails on the
`ai_agent_integration.py` implementation of getStatus. -/
theorem get_agent_status_timeout_counterexample :
    (AIAgentClient.init "http://b" none).get_agent_status_request.method = "GET" ∧
    (AIAgentClient.init "http://b" none).get_agent_status_request.url
      = "http://b/api/status" ∧
    (AIAgentClient.init "http://b" none).get_agent_status_request.timeout = none ∧
    (AIAgentClient.init "http://b" none).get_agent_status_request.timeout ≠ some 15 := by
  refine ⟨rfl, by decide, rfl, by decide⟩

/-- C8 amended: `ProxyRotatingAIAgent.get_agent_status` issues a GET to the
status endpoint with a 15-second timeout, while
`AIAgentClient.get_agent_status` issues the same GET with no timeout set. -/
theorem get_agent_status_timeout_amended (base : String) (key : Option String)
    (ps : List String) :
    ((ProxyRotatingAIAgent.init base key ps).get_agent_status_request.method = "GET" ∧
     (ProxyRotatingAIAgent.init base key ps).get_agent_status_request.url
        = rstrip_slash base ++ "/api/status" ∧
     (ProxyRotatingAIAgent.init base key ps).get_agent_status_request.timeout
        = some 15) ∧
    ((AIAgentClient.init base key).get_agent_status_request.method = "GET" ∧
     (AIAgentClient.init base key).get_agent_status_request.url
        = rstrip_slash base ++ "/api/status" ∧
     (AIAgentClient.init base key).get_agent_status_request.timeout = none) :=
  ⟨⟨rfl, rfl, rfl⟩, rfl, rfl, rfl⟩

/-! ### Claim C9 -/

/-- C9 counterexample: with a proxy pool configured but no credential,
`ProxyRotatingAIAgent.__init__` installs no headers at all — in particular
no browser-like `User-Agent` — even though proxy rotation is in use, so the
claim that proxy rotation alone implies the `User-Agent` header fails. -/
theorem headers_user_agent_counterexample :
    (ProxyRotatingAIAgent.init "http://b" none ["http://p1"]).proxies ≠ [] ∧
    (ProxyRotatingAIAgent.init "http://b" none ["http://p1"]).headers = [] ∧
    List.lookup "User-Agent"
      (ProxyRotatingAIAgent.init "http://b" none ["http://p1"]).headers = none :=
  ⟨by decide, rfl, rfl⟩

/-- C9 amended: whenever a credential is configured, every outgoing request
carries `Authorization: Bearer <token>`, `Content-Type: application/json`,
`Accept: application/json` and the fixed browser-like `User-Agent` string,
whether or not proxies are configured; when no credential is configured,
none of these headers are installed, even when proxy rotation is in use. -/
theorem headers_amended (base : String) (key : String) (ps : List String)
    (a : ProxyRotatingAIAgent) :
    (ProxyRotatingAIAgent.init base (some key) ps).headers
      = [("Authorization", "Bearer " ++ key),
         ("Content-Type", "application/json"),
         ("Accept", "application/json"),
         ("User-Agent", "Mozilla/5.0 (X11; Linux x86_64) AppleWebKit/537.36")] ∧
    (ProxyRotatingAIAgent.init base none ps).headers = [] ∧
    (a.send_message_request.headers = a.headers ∧
     a.get_agent_status_request.headers = a.headers ∧
     a.stream_chat_request.headers = a.headers) :=
  ⟨rfl, rfl, rfl, rfl, rfl⟩

/-! ### Claim C10 -/

/-- C10 counterexample: an `HTTPError` whose error body is not valid UTF-8.
The handler itself runs `e.read().decode('utf-8')`, which raises
`UnicodeDecodeError`; exceptions raised inside an `except` handler are not
caught by the sibling `except` clauses of the same `try`, so
`_make_request` raises to its caller on an HTTP error status — one of the
very cases the claim says always returns an `error` mapping. -/
theorem simple_agent_raises_counterexample :
    SimpleAIAgent._make_request utf8_0 (UrllibOutcome.httpError 500 bytes_invalid)
      = Except.error bytes_invalid ∧
    utf8_0 bytes_invalid = none :=
  ⟨rfl, rfl⟩

/-- C10 (amended): `SimpleAIAgent._make_request` — and `send_message`,
`get_status` and `configure`, which delegate to it — returns the decoded
JSON mapping on success and a mapping with an `error` key holding a string
on every handled failure (HTTP error status with a UTF-8-decodable error
body, URL error, JSON decode failure, or any other exception raised in the
tried block), raising nothing in those cases; the one exception is an
`HTTPError` whose error body is not valid UTF-8, where
`e.read().decode('utf-8')` inside the handler raises an uncaught
`UnicodeDecodeError`. -/
theorem simple_agent_never_raises (utf8 : Bytes → Option String)
    (o : UrllibOutcome) :
    ((∀ code body, o = UrllibOutcome.httpError code body → (utf8 body).isSome) →
      ((∃ b, o = UrllibOutcome.success b ∧
          SimpleAIAgent._make_request utf8 o = Except.ok b) ∨
        (∃ msg, SimpleAIAgent._make_request utf8 o
          = Except.ok [("error", msg)]))) ∧
    (∀ code body, o = UrllibOutcome.httpError code body → utf8 body = none →
      SimpleAIAgent._make_request utf8 o = Except.error body) ∧
    (SimpleAIAgent.send_message utf8 o = SimpleAIAgent._make_request utf8 o ∧
     SimpleAIAgent.get_status utf8 o = SimpleAIAgent._make_request utf8 o ∧
     SimpleAIAgent.configure utf8 o = SimpleAIAgent._make_request utf8 o) := by
  refine ⟨?_, ?_, rfl, rfl, rfl⟩
  · intro hhttp
    cases o with
    | success body => exact Or.inl ⟨body, rfl, rfl⟩
    | httpError code body =>
        obtain ⟨s, hs⟩ := Option.isSome_iff_exists.mp (hhttp code body rfl)
        exact Or.inr ⟨"HTTP " ++ toString code ++ ": " ++ s,
          by simp [SimpleAIAgent._make_request, hs]⟩
    | urlError msg => exact Or.inr ⟨_, rfl⟩
    | jsonDecodeError msg => exact Or.inr ⟨_, rfl⟩
    | otherException msg => exact Or.inr ⟨_, rfl⟩
  · intro code body hbody hnone
    subst hbody
    simp [SimpleAIAgent._make_request, hnone]

/-- Witness for the amended C10: a URL error returns the error mapping
without raising, and a non-UTF-8 `HTTPError` body raises. -/
theorem simple_agent_never_raises_witness :
    ((∃ b, UrllibOutcome.urlError "unreachable" = UrllibOutcome.success b ∧
        SimpleAIAgent._make_request utf8_0 (UrllibOutcome.urlError "unreachable")
          = Except.ok b) ∨
      (∃ msg, SimpleAIAgent._make_request utf8_0 (UrllibOutcome.urlError "unreachable")
        = Except.ok [("error", msg)])) ∧
    SimpleAIAgent._make_request utf8_0 (UrllibOutcome.httpError 404 bytes_invalid)
      = Except.error bytes_invalid :=
  ⟨(simple_agent_never_raises utf8_0 (UrllibOutcome.urlError "unreachable")).1
      (by intro code body h; exact UrllibOutcome.noConfusion h),
   (simple_agent_never_raises utf8_0 (UrllibOutcome.httpError 404 bytes_invalid)).2.1
      404 bytes_invalid rfl (by decide)⟩

end Social
